import Mathlib

/-!
Verification of the Arbiata arbitrage system against its specification.

The development shallowly embeds three parts of the code base:
- the `Arbfarm` settlement contract (Solidity): per-caller balance ledger,
  `receive`, `deposit`, `withdraw`, and the atomic `executeArb` swap sequence;
- the `/api/decide` endpoint: deterministic gate, risk/margin helpers,
  advisory-response handling and the rule-based `fallbackDecision`;
- the `/api/estimate` cycle: how each cost estimator obtains its ETH/USD
  reference via `getEthPriceUsd`.

Machine integers of the contract are modelled as `Nat` (Solidity 0.8 checked
arithmetic: any overflow or underflow reverts, which the embedding expresses by
returning `none` before a subtraction could truncate). JavaScript numbers of
the API layer are modelled as `Rat`. A reverting operation returns
`none`/`Except.error` and the caller keeps the pre-call state, which is the
EVM revert semantics.
-/

namespace Arbiata

/-! ## Settlement contract `Arbfarm`

State of the contract as seen by one fixed caller (`msg.sender`): the slot
`userBalances[msg.sender]`, the contract ETH balance `address(this).balance`,
and the append-only `userTransactions[msg.sender]` log. External swap-router
behaviour is an environment parameter. -/

/-- A `Transaction` record pushed by the contract. -/
structure Transaction where
  timestamp : Nat
  amountIn : Nat
  profit : Nat
  isExecuteArb : Bool
deriving DecidableEq, Repr

/-- An event emitted by the contract. -/
inductive Event where
  | Deposited (amount : Nat)
  | Withdrawn (amount : Nat)
  | ArbitrageExecuted (ethBefore ethAfter profit : Nat)
deriving DecidableEq, Repr

/-- Contract state restricted to one caller. -/
structure ArbState where
  userBal : Nat
  ethBalance : Nat
  txLog : List Transaction
deriving DecidableEq, Repr

/-- Environment for the two router legs of `executeArb`: given the input
amount, the router either reverts (`none`) or returns the amount received.
`usdcOut` is the WETH to USDC leg, `wethOut` the USDC to WETH leg. -/
structure SwapEnv where
  usdcOut : Nat → Option Nat
  wethOut : Nat → Option Nat

/-- The `receive()` function: credits `msg.value` to the sender balance and
emits `Deposited`, with no positive-amount check; it never reverts. -/
def receiveEth (st : ArbState) (msgValue : Nat) : ArbState × Event :=
  ({ st with userBal := st.userBal + msgValue,
             ethBalance := st.ethBalance + msgValue },
   Event.Deposited msgValue)

/-- The `deposit()` function: `require(msg.value > 0)`, then credits the
sender balance and emits `Deposited`. -/
def deposit (st : ArbState) (msgValue : Nat) : Option (ArbState × Event) :=
  if msgValue = 0 then none
  else some ({ st with userBal := st.userBal + msgValue,
                       ethBalance := st.ethBalance + msgValue },
             Event.Deposited msgValue)

/-- The `withdraw(amount)` function: `require(amount > 0, "Zero withdraw")`,
`require(userBalances[msg.sender] >= amount, "Insufficient balance")`, then
debit and `transfer` the amount out (the transfer reduces the contract ETH
balance; solvency of the contract is assumed, as the EVM transfer would
otherwise revert). Returns the new state and the amount transferred out. -/
def withdraw (st : ArbState) (amount : Nat) : Except String (ArbState × Nat) :=
  if amount = 0 then Except.error "Zero withdraw"
  else if st.userBal < amount then Except.error "Insufficient balance"
  else Except.ok ({ st with userBal := st.userBal - amount,
                            ethBalance := st.ethBalance - amount }, amount)

/-- The `executeArb(amountIn, minProfit)` function, one revert point at a
time, following the source order:
`require(amountIn > 0)`; `require(userBalances[msg.sender] >= amountIn)`;
capture `ethBefore`; debit the balance; `IWETH.deposit{value: amountIn}`
(moves `amountIn` ETH out of the contract, reverting if the contract cannot
fund it); first router leg with `require(usdcReceived > 0)`; second router
leg with `require(wethReceived > 0)`; `IWETH.withdraw(wethReceived)` (ETH
returns to the contract); `profit = ethAfter - ethBefore` (checked
subtraction: underflow reverts); `require(profit >= minProfit)`; credit
`amountIn + profit`; push the `Transaction` record. `none` means the whole
call reverted and no state change persists. -/
def executeArb (env : SwapEnv) (st : ArbState) (amountIn minProfit now : Nat) :
    Option (ArbState × Event) :=
  if amountIn = 0 then none
  else if st.userBal < amountIn then none
  else
    let ethBefore := st.ethBalance
    let bal1 := st.userBal - amountIn
    if st.ethBalance < amountIn then none
    else
      let eth1 := st.ethBalance - amountIn
      match env.usdcOut amountIn with
      | none => none
      | some usdcReceived =>
        if usdcReceived = 0 then none
        else
          match env.wethOut usdcReceived with
          | none => none
          | some wethReceived =>
            if wethReceived = 0 then none
            else
              let ethAfter := eth1 + wethReceived
              if ethAfter < ethBefore then none
              else
                let profit := ethAfter - ethBefore
                if profit < minProfit then none
                else
                  some ({ userBal := bal1 + (amountIn + profit),
                          ethBalance := ethAfter,
                          txLog := st.txLog ++ [⟨now, amountIn, profit, true⟩] },
                        Event.ArbitrageExecuted ethBefore ethAfter profit)

/-- The terminal state of a call to `executeArb`: the new state on success,
the unchanged pre-call state on revert. -/
def executeArbFinal (env : SwapEnv) (st : ArbState) (amountIn minProfit now : Nat) :
    ArbState :=
  match executeArb env st amountIn minProfit now with
  | some (st1, _) => st1
  | none => st

/-- Helper: a reverted `executeArb` call leaves the terminal state unchanged. -/
theorem executeArbFinal_of_none (env : SwapEnv) (st : ArbState)
    (amountIn minProfit now : Nat)
    (h : executeArb env st amountIn minProfit now = none) :
    executeArbFinal env st amountIn minProfit now = st := by
  unfold executeArbFinal
  rw [h]

/-- Claim C1: for every call to `executeArb(amountIn, minProfit)` where the
balance of the caller covers `amountIn`, either the realized profit (contract
ETH balance after the swap sequence minus before) is at least `minProfit`, the
balance of the caller is credited with `amountIn + profit`, and a
`Transaction` record is appended, or the entire operation reverts and the
balance and transaction log of the caller are unchanged from before the call;
partial execution is never a terminal state. -/
theorem executeArb_profit_or_revert (env : SwapEnv) (st : ArbState)
    (amountIn minProfit now : Nat) (hcov : amountIn ≤ st.userBal) :
    (executeArb env st amountIn minProfit now = none ∧
      executeArbFinal env st amountIn minProfit now = st) ∨
    (∃ st1 profit,
      executeArb env st amountIn minProfit now =
        some (st1, Event.ArbitrageExecuted st.ethBalance st1.ethBalance profit) ∧
      minProfit ≤ profit ∧
      st1.ethBalance = st.ethBalance + profit ∧
      st1.userBal = (st.userBal - amountIn) + (amountIn + profit) ∧
      st1.userBal = st.userBal + profit ∧
      st1.txLog = st.txLog ++ [⟨now, amountIn, profit, true⟩]) := by
  by_cases h0 : amountIn = 0
  · exact Or.inl ⟨by simp [executeArb, h0],
      executeArbFinal_of_none _ _ _ _ _ (by simp [executeArb, h0])⟩
  by_cases h1 : st.userBal < amountIn
  · exact Or.inl ⟨by simp [executeArb, h0, h1],
      executeArbFinal_of_none _ _ _ _ _ (by simp [executeArb, h0, h1])⟩
  by_cases h2 : st.ethBalance < amountIn
  · exact Or.inl ⟨by simp [executeArb, h0, h1, h2],
      executeArbFinal_of_none _ _ _ _ _ (by simp [executeArb, h0, h1, h2])⟩
  cases hu : env.usdcOut amountIn with
  | none =>
    exact Or.inl ⟨by simp [executeArb, h0, h1, h2, hu],
      executeArbFinal_of_none _ _ _ _ _ (by simp [executeArb, h0, h1, h2, hu])⟩
  | some usdcReceived =>
    by_cases h3 : usdcReceived = 0
    · exact Or.inl ⟨by simp [executeArb, h0, h1, h2, hu, h3],
        executeArbFinal_of_none _ _ _ _ _ (by simp [executeArb, h0, h1, h2, hu, h3])⟩
    cases hw : env.wethOut usdcReceived with
    | none =>
      exact Or.inl ⟨by simp [executeArb, h0, h1, h2, hu, h3, hw],
        executeArbFinal_of_none _ _ _ _ _ (by simp [executeArb, h0, h1, h2, hu, h3, hw])⟩
    | some wethReceived =>
      by_cases h4 : wethReceived = 0
      · exact Or.inl ⟨by simp [executeArb, h0, h1, h2, hu, h3, hw, h4],
          executeArbFinal_of_none _ _ _ _ _
            (by simp [executeArb, h0, h1, h2, hu, h3, hw, h4])⟩
      by_cases h5 : st.ethBalance - amountIn + wethReceived < st.ethBalance
      · exact Or.inl ⟨by simp [executeArb, h0, h1, h2, hu, h3, hw, h4, h5],
          executeArbFinal_of_none _ _ _ _ _
            (by simp [executeArb, h0, h1, h2, hu, h3, hw, h4, h5])⟩
      by_cases h6 : st.ethBalance - amountIn + wethReceived - st.ethBalance < minProfit
      · exact Or.inl ⟨by simp [executeArb, h0, h1, h2, hu, h3, hw, h4, h5, h6],
          executeArbFinal_of_none _ _ _ _ _
            (by simp [executeArb, h0, h1, h2, hu, h3, hw, h4, h5, h6])⟩
      · right
        set profit := st.ethBalance - amountIn + wethReceived - st.ethBalance with hp
        refine ⟨⟨st.userBal - amountIn + (amountIn + profit),
                 st.ethBalance - amountIn + wethReceived,
                 st.txLog ++ [⟨now, amountIn, profit, true⟩]⟩, profit,
            ?_, by omega, ?_, rfl, ?_, rfl⟩
        · simp [executeArb, h0, h1, h2, hu, h3, hw, h4, h5, h6]
        · show st.ethBalance - amountIn + wethReceived = st.ethBalance + profit
          omega
        · show st.userBal - amountIn + (amountIn + profit) = st.userBal + profit
          omega

/-- Witness for claim C1 at a concrete profitable run: balance 10 covers
`amountIn = 5`; the router legs return 100 USDC then 7 WETH, so the realized
profit is 2, which meets `minProfit = 2`. -/
theorem executeArb_profit_or_revert_witness :
    5 ≤ (ArbState.mk 10 10 []).userBal ∧
    ((executeArb ⟨fun _ => some 100, fun _ => some 7⟩ ⟨10, 10, []⟩ 5 2 77 = none ∧
      executeArbFinal ⟨fun _ => some 100, fun _ => some 7⟩ ⟨10, 10, []⟩ 5 2 77 =
        ⟨10, 10, []⟩) ∨
    (∃ st1 profit,
      executeArb ⟨fun _ => some 100, fun _ => some 7⟩ ⟨10, 10, []⟩ 5 2 77 =
        some (st1, Event.ArbitrageExecuted 10 st1.ethBalance profit) ∧
      2 ≤ profit ∧
      st1.ethBalance = 10 + profit ∧
      st1.userBal = (10 - 5) + (5 + profit) ∧
      st1.userBal = 10 + profit ∧
      st1.txLog = [] ++ [⟨77, 5, profit, true⟩])) :=
  ⟨by decide,
   executeArb_profit_or_revert ⟨fun _ => some 100, fun _ => some 7⟩ ⟨10, 10, []⟩
     5 2 77 (by decide)⟩

/-- Claim C8 counterexample: with balance 5, the amount 0 is within the
balance, yet `withdraw 0` does not debit and transfer out; it reverts with the
zero-withdraw error (not the insufficient-balance error), so the claim that
every within-balance amount is debited and transferred fails at amount 0. -/
theorem withdraw_zero_within_balance_reverts :
    0 ≤ (ArbState.mk 5 5 []).userBal ∧
    withdraw ⟨5, 5, []⟩ 0 = Except.error "Zero withdraw" ∧
    ∀ r, withdraw ⟨5, 5, []⟩ 0 ≠ Except.ok r := by
  refine ⟨Nat.zero_le _, rfl, fun r h => ?_⟩
  simp [withdraw] at h

/-- Claim C8 as amended: `withdraw(amount)` never succeeds when `amount`
exceeds the balance and fails there with the insufficient-balance error; when
`0 < amount` is within the balance it debits exactly `amount` and transfers
`amount` out; and (the amendment) `withdraw(0)` fails with the zero-withdraw
error even though 0 is within the balance. -/
theorem withdraw_spec (st : ArbState) (amount : Nat) :
    (st.userBal < amount → ∀ r, withdraw st amount ≠ Except.ok r) ∧
    (st.userBal < amount →
      withdraw st amount = Except.error "Insufficient balance") ∧
    (0 < amount → amount ≤ st.userBal →
      withdraw st amount =
        Except.ok ({ st with userBal := st.userBal - amount,
                             ethBalance := st.ethBalance - amount }, amount)) ∧
    (amount = 0 → withdraw st amount = Except.error "Zero withdraw") := by
  refine ⟨fun hlt r h => ?_, fun hlt => ?_, fun hpos hle => ?_, fun h0 => ?_⟩
  · have hne : amount ≠ 0 := by omega
    simp [withdraw, hne, hlt] at h
  · have hne : amount ≠ 0 := by omega
    simp [withdraw, hne, hlt]
  · have hne : amount ≠ 0 := by omega
    simp [withdraw, hne, Nat.not_lt.mpr hle]
  · simp [withdraw, h0]

/-- Witness for claim C8 at concrete inputs: balance 5 pays out 3, rejects 7,
and rejects 0. -/
theorem withdraw_spec_witness :
    withdraw ⟨5, 5, []⟩ 7 = Except.error "Insufficient balance" ∧
    withdraw ⟨5, 5, []⟩ 3 = Except.ok (⟨2, 2, []⟩, 3) ∧
    withdraw ⟨5, 5, []⟩ 0 = Except.error "Zero withdraw" :=
  ⟨(withdraw_spec ⟨5, 5, []⟩ 7).2.1 (by decide),
   (withdraw_spec ⟨5, 5, []⟩ 3).2.2.1 (by decide) (by decide),
   (withdraw_spec ⟨5, 5, []⟩ 0).2.2.2 rfl⟩

/-- Claim C10: a plain ETH transfer handled by `receive()` credits
`msg.value` to the sender balance and emits a `Deposited` event with no
positive-amount precondition, so a zero-value transfer succeeds as a no-op
deposit (state unchanged, `Deposited 0` emitted), while `deposit()` with zero
value is rejected. -/
theorem receive_vs_deposit_zero_value :
    (∀ (st : ArbState) (v : Nat),
      receiveEth st v =
        ({ st with userBal := st.userBal + v, ethBalance := st.ethBalance + v },
         Event.Deposited v)) ∧
    (∀ st : ArbState, receiveEth st 0 = (st, Event.Deposited 0)) ∧
    (∀ st : ArbState, deposit st 0 = none) := by
  refine ⟨fun st v => rfl, fun st => ?_, fun st => rfl⟩
  simp [receiveEth]

/-! ## Decision endpoint `/api/decide`

The request body, the helper classifiers `inferSlippageRisk`, `inferMEVRisk`,
`inferTimingRisk`, `calculateProfitMargin`, the rule-based
`fallbackDecision`, and the `POST` handler pipeline. JavaScript numbers are
modelled as `Rat`; the advisory (AI) call is an environment parameter
`AiOutcome` recording how the call and the decoding of its free-text answer
went. -/

/-- A risk level, as the lowercase union type of the source. -/
inductive Risk where
  | low
  | medium
  | high
deriving DecidableEq, Repr

/-- A profit-margin class. -/
inductive Margin where
  | safe
  | acceptable
  | thin
deriving DecidableEq, Repr

/-- The validated `DecideRequest` body (all fields present). Optional risk
levels arrive as `LOW`/`MEDIUM`/`HIGH` and are lowercased by the handler; the
embedding carries them directly as `Option Risk`. -/
structure DecideRequest where
  spreadPercent : ℚ
  netProfitUsd : ℚ
  gasCostUsd : ℚ
  slippageUsd : ℚ
  feesUsd : ℚ
  slippageRiskIn : Option Risk
  mevRiskIn : Option Risk
  timingRiskIn : Option Risk
  tradeSizeUsd : ℚ
  liquidityUsd : ℚ
deriving DecidableEq, Repr

/-- The decision object of the response. The source type of `decision` is the
union `EXECUTE | SKIP`, but at runtime any string from the advisory response
flows through unchecked, so the embedding uses `String`. The `riskAnalysis`
fields are inlined (`gasRisk` receives the timing risk, as in the source). -/
structure Decision where
  decision : String
  reason : String
  confidence : ℚ
  gasRisk : Risk
  slippageRisk : Risk
  mevRisk : Risk
  profitMargin : Margin
deriving DecidableEq, Repr

/-- `inferSlippageRisk`: slippage as a percentage of net profit (100 when net
profit is not positive); above 50 high, above 25 medium, else low. -/
def inferSlippageRisk (data : DecideRequest) : Risk :=
  if 50 < (if 0 < data.netProfitUsd
           then data.slippageUsd / data.netProfitUsd * 100 else 100)
  then Risk.high
  else if 25 < (if 0 < data.netProfitUsd
                then data.slippageUsd / data.netProfitUsd * 100 else 100)
  then Risk.medium
  else Risk.low

/-- `inferMEVRisk`: high when slippage exceeds $2 and trade size exceeds $50,
medium when slippage exceeds $1, else low. -/
def inferMEVRisk (data : DecideRequest) : Risk :=
  if 2 < data.slippageUsd ∧ 50 < data.tradeSizeUsd then Risk.high
  else if 1 < data.slippageUsd then Risk.medium
  else Risk.low

/-- `inferTimingRisk`: gas as a percentage of net profit (100 when net profit
is not positive); above 50 high, above 30 medium, else low. -/
def inferTimingRisk (data : DecideRequest) : Risk :=
  if 50 < (if 0 < data.netProfitUsd
           then data.gasCostUsd / data.netProfitUsd * 100 else 100)
  then Risk.high
  else if 30 < (if 0 < data.netProfitUsd
                then data.gasCostUsd / data.netProfitUsd * 100 else 100)
  then Risk.medium
  else Risk.low

/-- `calculateProfitMargin`: the profit-to-gas quotient, taken as 0 when the
gas cost is not positive; at least 5 safe, at least 3 acceptable, else thin. -/
def calculateProfitMargin (data : DecideRequest) : Margin :=
  if 5 ≤ (if 0 < data.gasCostUsd then data.netProfitUsd / data.gasCostUsd else 0)
  then Margin.safe
  else if 3 ≤ (if 0 < data.gasCostUsd then data.netProfitUsd / data.gasCostUsd else 0)
  then Margin.acceptable
  else Margin.thin

/-- The reason string of the EXECUTE branch of the fallback; the `toFixed(2)`
number formatting of the source is abstracted as `toString`. -/
def execReason (netProfitUsd : ℚ) : String :=
  "Net profit $" ++ toString netProfitUsd ++ " with low overall risk"

/-- `fallbackDecision`: SKIP when any risk is high or at least two are medium;
SKIP when the margin is thin; EXECUTE when net profit is at least $5, all
risks are low and the margin is safe; SKIP otherwise. -/
def fallbackDecision (data : DecideRequest)
    (slippageRisk mevRisk timingRisk : Risk) (profitMargin : Margin) : Decision :=
  if Risk.high ∈ [slippageRisk, mevRisk, timingRisk] ∨
      2 ≤ ([slippageRisk, mevRisk, timingRisk].filter
            (fun r => r = Risk.medium)).length then
    ⟨"SKIP", "Overall risk assessment is HIGH - execution unsafe", 85/100,
     timingRisk, slippageRisk, mevRisk, profitMargin⟩
  else if profitMargin = Margin.thin then
    ⟨"SKIP", "Profit margin too thin relative to gas cost", 8/10,
     timingRisk, slippageRisk, mevRisk, profitMargin⟩
  else if 5 ≤ data.netProfitUsd ∧
      (∀ r ∈ [slippageRisk, mevRisk, timingRisk], r = Risk.low) ∧
      profitMargin = Margin.safe then
    ⟨"EXECUTE", execReason data.netProfitUsd, 75/100,
     timingRisk, slippageRisk, mevRisk, profitMargin⟩
  else
    ⟨"SKIP", "Risk-reward ratio not favorable for execution", 7/10,
     timingRisk, slippageRisk, mevRisk, profitMargin⟩

/-- The fields the advisory JSON object actually carried after
`JSON.parse` succeeded on the regex match; each field may be absent. -/
structure PartialAdvisory where
  decision : Option String
  reason : Option String
  confidence : Option ℚ
deriving DecidableEq, Repr

/-- Outcome of the advisory-capability call: missing API key, a thrown
error or timeout, a response without a JSON-looking substring, a response
whose match fails `JSON.parse`, or a parsed object. -/
inductive AiOutcome where
  | noKey
  | callError
  | noJsonMatch
  | parseError
  | parsed (p : PartialAdvisory)
deriving DecidableEq, Repr

/-- The JavaScript `v || dflt` idiom on a string field: a missing field and
the empty string are both falsy. -/
def jsOrString (v : Option String) (dflt : String) : String :=
  match v with
  | some s => if s = "" then dflt else s
  | none => dflt

/-- The JavaScript `v || dflt` idiom on a numeric field: a missing field and
the number 0 are both falsy. -/
def jsOrNum (v : Option ℚ) (dflt : ℚ) : ℚ :=
  match v with
  | some x => if x = 0 then dflt else x
  | none => dflt

/-- `Math.min(1, Math.max(0, x))`. -/
def clamp01 (x : ℚ) : ℚ := min 1 (max 0 x)

/-- The decision assembled from a parsed advisory object:
`parsed.decision || SKIP`, `parsed.reason || AI decision completed`,
`Math.min(1, Math.max(0, parsed.confidence || 0.5))`. -/
def aiDecision (p : PartialAdvisory)
    (timingRisk slippageRisk mevRisk : Risk) (profitMargin : Margin) : Decision :=
  ⟨jsOrString p.decision "SKIP",
   jsOrString p.reason "AI decision completed",
   clamp01 (jsOrNum p.confidence (1/2)),
   timingRisk, slippageRisk, mevRisk, profitMargin⟩

/-- Risk used for slippage: the provided level, else the inferred one. -/
def resolvedSlippageRisk (body : DecideRequest) : Risk :=
  body.slippageRiskIn.getD (inferSlippageRisk body)

/-- Risk used for MEV: the provided level, else the inferred one. -/
def resolvedMevRisk (body : DecideRequest) : Risk :=
  body.mevRiskIn.getD (inferMEVRisk body)

/-- Risk used for timing: the provided level, else the inferred one. -/
def resolvedTimingRisk (body : DecideRequest) : Risk :=
  body.timingRiskIn.getD (inferTimingRisk body)

/-- The decision produced by the `POST` handler on a validated body: the
three deterministic early exits in source order, then the advisory branch
(used whenever a JSON object was parsed) or the rule-based fallback. -/
def decidePost (body : DecideRequest) (ai : AiOutcome) : Decision :=
  if body.netProfitUsd ≤ 0 then
    ⟨"SKIP", "Net profit is negative or zero", 1,
     resolvedTimingRisk body, resolvedSlippageRisk body, resolvedMevRisk body,
     calculateProfitMargin body⟩
  else if body.netProfitUsd < 2 then
    ⟨"SKIP", "Net profit below $2 minimum threshold", 95/100,
     resolvedTimingRisk body, resolvedSlippageRisk body, resolvedMevRisk body,
     calculateProfitMargin body⟩
  else if 5 < body.spreadPercent then
    ⟨"SKIP", "Spread >5% appears anomalous - possible bad data", 9/10,
     resolvedTimingRisk body, resolvedSlippageRisk body, resolvedMevRisk body,
     calculateProfitMargin body⟩
  else
    match ai with
    | AiOutcome.parsed p =>
        aiDecision p (resolvedTimingRisk body) (resolvedSlippageRisk body)
          (resolvedMevRisk body) (calculateProfitMargin body)
    | _ =>
        fallbackDecision body (resolvedSlippageRisk body) (resolvedMevRisk body)
          (resolvedTimingRisk body) (calculateProfitMargin body)

/-- The raw request body before validation: the two required numeric fields
may be absent. -/
structure RawDecideRequest where
  spreadPercent : Option ℚ
  netProfitUsd : Option ℚ
  gasCostUsd : ℚ
  slippageUsd : ℚ
  feesUsd : ℚ
  slippageRiskIn : Option Risk
  mevRiskIn : Option Risk
  timingRiskIn : Option Risk
  tradeSizeUsd : ℚ
  liquidityUsd : ℚ
deriving DecidableEq, Repr

/-- The validated body assembled from a raw request whose required fields
are present. -/
def toBody (raw : RawDecideRequest) (np sp : ℚ) : DecideRequest :=
  ⟨sp, np, raw.gasCostUsd, raw.slippageUsd, raw.feesUsd, raw.slippageRiskIn,
   raw.mevRiskIn, raw.timingRiskIn, raw.tradeSizeUsd, raw.liquidityUsd⟩

/-- The endpoint response: the `success` flag and the decision object. -/
structure DecideResponse where
  success : Bool
  decision : Decision
deriving DecidableEq, Repr

/-- The full `POST` handler: a missing required field yields the 400 response
with `success := false`; otherwise the pipeline runs and `success := true`. -/
def decideEndpoint (raw : RawDecideRequest) (ai : AiOutcome) : DecideResponse :=
  match raw.netProfitUsd, raw.spreadPercent with
  | some np, some sp => ⟨true, decidePost (toBody raw np sp) ai⟩
  | _, _ =>
      ⟨false, ⟨"SKIP", "Missing required simulation data", 0,
               Risk.high, Risk.high, Risk.high, Margin.thin⟩⟩

/-- Helper: the interpolated EXECUTE reason is never the empty string. -/
theorem execReason_ne_empty (x : ℚ) : execReason x ≠ "" := by
  intro h
  have h2 := congrArg String.length h
  unfold execReason at h2
  rw [String.length_append, String.length_append] at h2
  have ha : "Net profit $".length = 12 := rfl
  have hb : " with low overall risk".length = 22 := rfl
  have hc : ("" : String).length = 0 := rfl
  omega

/-- Helper: the JavaScript string-default idiom never returns the empty
string when its default is non-empty. -/
theorem jsOrString_ne_empty (v : Option String) (dflt : String)
    (hd : dflt ≠ "") : jsOrString v dflt ≠ "" := by
  unfold jsOrString
  cases v with
  | none => exact hd
  | some s =>
      show (if s = "" then dflt else s) ≠ ""
      by_cases hs : s = ""
      · rw [if_pos hs]; exact hd
      · rw [if_neg hs]; exact hs

/-- Helper: every fallback decision carries a non-empty reason. -/
theorem fallbackDecision_reason_ne_empty (data : DecideRequest)
    (s m t : Risk) (p : Margin) :
    (fallbackDecision data s m t p).reason ≠ "" := by
  unfold fallbackDecision
  split_ifs with h1 h2 h3
  · show ("Overall risk assessment is HIGH - execution unsafe" : String) ≠ ""
    decide
  · show ("Profit margin too thin relative to gas cost" : String) ≠ ""
    decide
  · show execReason data.netProfitUsd ≠ ""
    exact execReason_ne_empty _
  · show ("Risk-reward ratio not favorable for execution" : String) ≠ ""
    decide

/-- Helper: every decision of the validated pipeline carries a non-empty
reason. -/
theorem decidePost_reason_ne_empty (body : DecideRequest) (ai : AiOutcome) :
    (decidePost body ai).reason ≠ "" := by
  unfold decidePost
  split_ifs with h1 h2 h3
  · show ("Net profit is negative or zero" : String) ≠ ""
    decide
  · show ("Net profit below $2 minimum threshold" : String) ≠ ""
    decide
  · show ("Spread >5% appears anomalous - possible bad data" : String) ≠ ""
    decide
  · cases ai with
    | parsed p =>
        show (aiDecision p (resolvedTimingRisk body) (resolvedSlippageRisk body)
          (resolvedMevRisk body) (calculateProfitMargin body)).reason ≠ ""
        exact jsOrString_ne_empty _ _ (by decide)
    | noKey => exact fallbackDecision_reason_ne_empty _ _ _ _ _
    | callError => exact fallbackDecision_reason_ne_empty _ _ _ _ _
    | noJsonMatch => exact fallbackDecision_reason_ne_empty _ _ _ _ _
    | parseError => exact fallbackDecision_reason_ne_empty _ _ _ _ _

/-- Claim C2: the deterministic gate runs its three checks in fixed order
(non-positive profit, then the $2 floor, then the 5% spread ceiling); the
first matching check wins and the result does not depend on the advisory
outcome, so neither the advisory capability nor the fallback is consulted;
for netProfitUsd at most 0 the verdict is SKIP with confidence 1. -/
theorem decide_gate_short_circuit (body : DecideRequest) (ai ai2 : AiOutcome) :
    (body.netProfitUsd ≤ 0 →
      (decidePost body ai).decision = "SKIP" ∧
      (decidePost body ai).confidence = 1 ∧
      (decidePost body ai).reason = "Net profit is negative or zero" ∧
      decidePost body ai = decidePost body ai2) ∧
    (0 < body.netProfitUsd → body.netProfitUsd < 2 →
      (decidePost body ai).decision = "SKIP" ∧
      (decidePost body ai).reason = "Net profit below $2 minimum threshold" ∧
      decidePost body ai = decidePost body ai2) ∧
    (2 ≤ body.netProfitUsd → 5 < body.spreadPercent →
      (decidePost body ai).decision = "SKIP" ∧
      (decidePost body ai).reason =
        "Spread >5% appears anomalous - possible bad data" ∧
      decidePost body ai = decidePost body ai2) := by
  refine ⟨fun h => ?_, fun h1 h2 => ?_, fun h1 h2 => ?_⟩
  · simp [decidePost, h]
  · have h0 : ¬ body.netProfitUsd ≤ 0 := not_le.mpr h1
    simp [decidePost, h0, h2]
  · have h0 : ¬ body.netProfitUsd ≤ 0 := by linarith
    have h2n : ¬ body.netProfitUsd < 2 := not_lt.mpr h1
    simp [decidePost, h0, h2n, h2]

/-- Witness for claim C2: each gate fires on its own concrete input, with the
advisory outcome irrelevant. -/
theorem decide_gate_short_circuit_witness :
    (decidePost ⟨1, -1, 1, 0, 0, none, none, none, 10, 0⟩
        AiOutcome.noKey).decision = "SKIP" ∧
    (decidePost ⟨1, -1, 1, 0, 0, none, none, none, 10, 0⟩
        AiOutcome.noKey).confidence = 1 ∧
    (decidePost ⟨1, 1, 1, 0, 0, none, none, none, 10, 0⟩
        AiOutcome.noKey).reason = "Net profit below $2 minimum threshold" ∧
    (decidePost ⟨7, 6, 1, 0, 0, none, none, none, 10, 0⟩
        AiOutcome.noKey).reason =
      "Spread >5% appears anomalous - possible bad data" :=
  ⟨((decide_gate_short_circuit _ AiOutcome.noKey AiOutcome.callError).1
      (by norm_num)).1,
   ((decide_gate_short_circuit _ AiOutcome.noKey AiOutcome.callError).1
      (by norm_num)).2.1,
   ((decide_gate_short_circuit _ AiOutcome.noKey AiOutcome.callError).2.1
      (by norm_num) (by norm_num)).2.1,
   ((decide_gate_short_circuit _ AiOutcome.noKey AiOutcome.callError).2.2
      (by norm_num) (by norm_num)).2.1⟩

/-- Claim C3: the rule-based fallback SKIPs when any risk is high or at least
two are medium, SKIPs when the margin is thin, EXECUTEs exactly when net
profit is at least $5 with all three risks low and the margin safe, and SKIPs
in every other case; in that EXECUTE case the confidence is 0.75. -/
theorem fallback_rule_characterization (data : DecideRequest)
    (s m t : Risk) (p : Margin) :
    (Risk.high ∈ [s, m, t] ∨
        2 ≤ ([s, m, t].filter (fun r => r = Risk.medium)).length →
      (fallbackDecision data s m t p).decision = "SKIP" ∧
      (fallbackDecision data s m t p).confidence = 85/100) ∧
    (¬(Risk.high ∈ [s, m, t] ∨
        2 ≤ ([s, m, t].filter (fun r => r = Risk.medium)).length) →
      p = Margin.thin → (fallbackDecision data s m t p).decision = "SKIP") ∧
    ((fallbackDecision data s m t p).decision = "EXECUTE" ↔
      5 ≤ data.netProfitUsd ∧ s = Risk.low ∧ m = Risk.low ∧ t = Risk.low ∧
        p = Margin.safe) ∧
    (5 ≤ data.netProfitUsd → s = Risk.low → m = Risk.low → t = Risk.low →
      p = Margin.safe →
      (fallbackDecision data s m t p).decision = "EXECUTE" ∧
      (fallbackDecision data s m t p).confidence = 75/100) := by
  refine ⟨fun h1 => ?_, fun h1 h2 => ?_, ⟨fun hE => ?_, ?_⟩, fun h5 hs hm ht hp => ?_⟩
  · unfold fallbackDecision
    rw [if_pos h1]
    exact ⟨rfl, rfl⟩
  · unfold fallbackDecision
    rw [if_neg h1, if_pos h2]
  · unfold fallbackDecision at hE
    by_cases h1 : Risk.high ∈ [s, m, t] ∨
        2 ≤ ([s, m, t].filter (fun r => r = Risk.medium)).length
    · rw [if_pos h1] at hE
      have hc : ("SKIP" : String) = "EXECUTE" := hE
      exact absurd hc (by decide)
    rw [if_neg h1] at hE
    by_cases h2 : p = Margin.thin
    · rw [if_pos h2] at hE
      have hc : ("SKIP" : String) = "EXECUTE" := hE
      exact absurd hc (by decide)
    rw [if_neg h2] at hE
    by_cases h3 : 5 ≤ data.netProfitUsd ∧
        (∀ r ∈ [s, m, t], r = Risk.low) ∧ p = Margin.safe
    · obtain ⟨h5, hall, hsafe⟩ := h3
      exact ⟨h5, hall s (by simp), hall m (by simp), hall t (by simp), hsafe⟩
    · rw [if_neg h3] at hE
      have hc : ("SKIP" : String) = "EXECUTE" := hE
      exact absurd hc (by decide)
  · rintro ⟨h5, rfl, rfl, rfl, rfl⟩
    unfold fallbackDecision
    rw [if_neg (by decide), if_neg (by decide), if_pos ⟨h5, by decide, rfl⟩]
  · subst hs hm ht hp
    unfold fallbackDecision
    rw [if_neg (by decide), if_neg (by decide), if_pos ⟨h5, by decide, rfl⟩]
    exact ⟨rfl, rfl⟩

/-- Witness for claim C3, Scenario B: net profit $6, all three risks low,
margin safe, gives EXECUTE with confidence 0.75. -/
theorem fallback_rule_characterization_witness :
    (fallbackDecision ⟨1, 6, 1, 0, 0, none, none, none, 10, 0⟩
      Risk.low Risk.low Risk.low Margin.safe).decision = "EXECUTE" ∧
    (fallbackDecision ⟨1, 6, 1, 0, 0, none, none, none, 10, 0⟩
      Risk.low Risk.low Risk.low Margin.safe).confidence = 75/100 :=
  (fallback_rule_characterization ⟨1, 6, 1, 0, 0, none, none, none, 10, 0⟩
    Risk.low Risk.low Risk.low Margin.safe).2.2.2
    (by norm_num) rfl rfl rfl rfl

/-- Claim C9: when the request reaching the fallback has a non-positive
gasCostUsd, the profit-gas quotient is taken as 0, so the margin is thin and
the fallback verdict is SKIP no matter how large netProfitUsd is. -/
theorem zero_gas_fallback_skip (data : DecideRequest) (s m t : Risk)
    (h : data.gasCostUsd ≤ 0) :
    calculateProfitMargin data = Margin.thin ∧
    (fallbackDecision data s m t (calculateProfitMargin data)).decision =
      "SKIP" := by
  have hm : calculateProfitMargin data = Margin.thin := by
    unfold calculateProfitMargin
    rw [if_neg (not_lt.mpr h)]
    norm_num
  refine ⟨hm, ?_⟩
  rw [hm]
  unfold fallbackDecision
  by_cases h1 : Risk.high ∈ [s, m, t] ∨
      2 ≤ ([s, m, t].filter (fun r => r = Risk.medium)).length
  · rw [if_pos h1]
  · rw [if_neg h1, if_pos rfl]

/-- Witness for claim C9: gas cost 0 with a one-million-dollar net profit and
all risks low still yields a thin margin and a SKIP from the fallback. -/
theorem zero_gas_fallback_skip_witness :
    calculateProfitMargin ⟨1, 1000000, 0, 0, 0, none, none, none, 10, 0⟩ =
      Margin.thin ∧
    (fallbackDecision ⟨1, 1000000, 0, 0, 0, none, none, none, 10, 0⟩
      Risk.low Risk.low Risk.low
      (calculateProfitMargin ⟨1, 1000000, 0, 0, 0, none, none, none, 10, 0⟩)
      ).decision = "SKIP" :=
  zero_gas_fallback_skip ⟨1, 1000000, 0, 0, 0, none, none, none, 10, 0⟩
    Risk.low Risk.low Risk.low (by norm_num)

/-- Claim C4 counterexample: on a gate-passing request (net profit $6,
spread 1%, all risks low, margin safe), an advisory response whose JSON
object violates the strict schema (decision `MAYBE`, no reason, confidence 2)
is NOT treated as advisory-unavailable: the handler assembles a best-effort
decision from the partial object (verdict `MAYBE`, default reason, clamped
confidence 1) instead of the rule-based fallback, which would EXECUTE with
confidence 0.75 here. -/
theorem advisory_partial_response_used_cex :
    (decidePost ⟨1, 6, 1, 0, 0, some Risk.low, some Risk.low, some Risk.low, 10, 0⟩
      (AiOutcome.parsed ⟨some "MAYBE", none, some 2⟩)).decision = "MAYBE" ∧
    (decidePost ⟨1, 6, 1, 0, 0, some Risk.low, some Risk.low, some Risk.low, 10, 0⟩
      (AiOutcome.parsed ⟨some "MAYBE", none, some 2⟩)).reason =
      "AI decision completed" ∧
    (decidePost ⟨1, 6, 1, 0, 0, some Risk.low, some Risk.low, some Risk.low, 10, 0⟩
      (AiOutcome.parsed ⟨some "MAYBE", none, some 2⟩)).confidence = 1 ∧
    decidePost ⟨1, 6, 1, 0, 0, some Risk.low, some Risk.low, some Risk.low, 10, 0⟩
      (AiOutcome.parsed ⟨some "MAYBE", none, some 2⟩) ≠
    fallbackDecision ⟨1, 6, 1, 0, 0, some Risk.low, some Risk.low, some Risk.low, 10, 0⟩
      Risk.low Risk.low Risk.low Margin.safe := by
  decide

/-- Claim C4 as amended: only a failed advisory call (missing key, thrown
error or timeout), a response with no JSON-looking substring, or a substring
that fails `JSON.parse` route to the rule-based fallback; a successfully
parsed object is always used, with missing or falsy fields filled by defaults
(decision SKIP, reason `AI decision completed`, confidence 0.5) and the
confidence clamped to [0,1], without validating the object against the
schema. -/
theorem advisory_decode_routing (body : DecideRequest) (p : PartialAdvisory)
    (hg1 : 2 ≤ body.netProfitUsd) (hg2 : body.spreadPercent ≤ 5) :
    (∀ ai ∈ [AiOutcome.noKey, AiOutcome.callError, AiOutcome.noJsonMatch,
             AiOutcome.parseError],
      decidePost body ai =
        fallbackDecision body (resolvedSlippageRisk body) (resolvedMevRisk body)
          (resolvedTimingRisk body) (calculateProfitMargin body)) ∧
    (decidePost body (AiOutcome.parsed p)).decision =
      jsOrString p.decision "SKIP" ∧
    (decidePost body (AiOutcome.parsed p)).reason =
      jsOrString p.reason "AI decision completed" ∧
    (decidePost body (AiOutcome.parsed p)).confidence =
      clamp01 (jsOrNum p.confidence (1/2)) := by
  have h0 : ¬ body.netProfitUsd ≤ 0 := by linarith
  have h2 : ¬ body.netProfitUsd < 2 := not_lt.mpr hg1
  have h5 : ¬ 5 < body.spreadPercent := not_lt.mpr hg2
  refine ⟨?_, ?_, ?_, ?_⟩
  · intro ai hai
    simp only [List.mem_cons, List.not_mem_nil, or_false] at hai
    rcases hai with rfl | rfl | rfl | rfl <;> simp [decidePost, h0, h2, h5]
  · simp [decidePost, h0, h2, h5, aiDecision]
  · simp [decidePost, h0, h2, h5, aiDecision]
  · simp [decidePost, h0, h2, h5, aiDecision]

/-- Witness for claim C4 as amended, at a concrete gate-passing request: a
call error routes to the fallback, and a well-formed parsed object is used as
given. -/
theorem advisory_decode_routing_witness :
    decidePost ⟨1, 6, 1, 0, 0, some Risk.low, some Risk.low, some Risk.low, 10, 0⟩
        AiOutcome.callError =
      fallbackDecision
        ⟨1, 6, 1, 0, 0, some Risk.low, some Risk.low, some Risk.low, 10, 0⟩
        (resolvedSlippageRisk
          ⟨1, 6, 1, 0, 0, some Risk.low, some Risk.low, some Risk.low, 10, 0⟩)
        (resolvedMevRisk
          ⟨1, 6, 1, 0, 0, some Risk.low, some Risk.low, some Risk.low, 10, 0⟩)
        (resolvedTimingRisk
          ⟨1, 6, 1, 0, 0, some Risk.low, some Risk.low, some Risk.low, 10, 0⟩)
        (calculateProfitMargin
          ⟨1, 6, 1, 0, 0, some Risk.low, some Risk.low, some Risk.low, 10, 0⟩) ∧
    (decidePost ⟨1, 6, 1, 0, 0, some Risk.low, some Risk.low, some Risk.low, 10, 0⟩
      (AiOutcome.parsed ⟨some "EXECUTE", some "ok", some (9/10)⟩)).decision =
      jsOrString (some "EXECUTE") "SKIP" :=
  ⟨((advisory_decode_routing _ ⟨some "EXECUTE", some "ok", some (9/10)⟩
      (by norm_num) (by norm_num)).1 AiOutcome.callError (by decide)),
   (advisory_decode_routing _ ⟨some "EXECUTE", some "ok", some (9/10)⟩
      (by norm_num) (by norm_num)).2.1⟩

/-- Claim C5 counterexample: with spread 7% and net profit $1, the verdict is
indeed SKIP, but the reason is the $2-floor reason from the earlier gate, not
the anomalous-spread reason, refuting the claim that every spread-7% request
is skipped with an anomalous-spread reason. -/
theorem spread_seven_reason_cex :
    (decidePost ⟨7, 1, 1, 0, 0, some Risk.low, some Risk.low, some Risk.low, 10, 0⟩
      AiOutcome.noKey).decision = "SKIP" ∧
    (decidePost ⟨7, 1, 1, 0, 0, some Risk.low, some Risk.low, some Risk.low, 10, 0⟩
      AiOutcome.noKey).reason = "Net profit below $2 minimum threshold" ∧
    (decidePost ⟨7, 1, 1, 0, 0, some Risk.low, some Risk.low, some Risk.low, 10, 0⟩
      AiOutcome.noKey).reason ≠
      "Spread >5% appears anomalous - possible bad data" := by
  decide

/-- Claim C5 as amended: with spread 7% the verdict is SKIP for every value
of netProfitUsd and every advisory outcome, and the reason is the
anomalous-spread reason whenever netProfitUsd is at least the $2 floor (an
earlier gate and its reason win below the floor). -/
theorem spread_seven_always_skip (body : DecideRequest) (ai : AiOutcome)
    (h7 : body.spreadPercent = 7) :
    (decidePost body ai).decision = "SKIP" ∧
    (2 ≤ body.netProfitUsd →
      (decidePost body ai).reason =
        "Spread >5% appears anomalous - possible bad data") := by
  by_cases h0 : body.netProfitUsd ≤ 0
  · exact ⟨by simp [decidePost, h0], fun h2 => by linarith⟩
  by_cases h2 : body.netProfitUsd < 2
  · exact ⟨by simp [decidePost, h0, h2], fun hh => by linarith⟩
  · have h5 : 5 < body.spreadPercent := by rw [h7]; norm_num
    exact ⟨by simp [decidePost, h0, h2, h5],
           fun hh => by simp [decidePost, h0, h2, h5]⟩

/-- Witness for claim C5 as amended: spread 7% with net profit $6. -/
theorem spread_seven_always_skip_witness :
    (decidePost ⟨7, 6, 1, 0, 0, none, none, none, 10, 0⟩
        AiOutcome.noKey).decision = "SKIP" ∧
    (decidePost ⟨7, 6, 1, 0, 0, none, none, none, 10, 0⟩
        AiOutcome.noKey).reason =
      "Spread >5% appears anomalous - possible bad data" :=
  ⟨(spread_seven_always_skip ⟨7, 6, 1, 0, 0, none, none, none, 10, 0⟩
      AiOutcome.noKey rfl).1,
   (spread_seven_always_skip ⟨7, 6, 1, 0, 0, none, none, none, 10, 0⟩
      AiOutcome.noKey rfl).2 (by norm_num)⟩

/-- Claim C6: no advisory outcome makes the decision request fail: on a valid
body the response is successful for every advisory outcome, the returned
decision always carries a non-empty reason string (on invalid bodies too),
and when the advisory call errors out, times out, or returns a malformed
(unparseable) response on a gate-passing body, the returned decision is the
one produced by the rule-based fallback. -/
theorem advisory_failure_no_request_failure (raw : RawDecideRequest)
    (ai : AiOutcome) :
    (decideEndpoint raw ai).decision.reason ≠ "" ∧
    (∀ np sp, raw.netProfitUsd = some np → raw.spreadPercent = some sp →
      (decideEndpoint raw ai).success = true) ∧
    (∀ np sp, raw.netProfitUsd = some np → raw.spreadPercent = some sp →
      2 ≤ np → sp ≤ 5 →
      ai ∈ [AiOutcome.callError, AiOutcome.noJsonMatch, AiOutcome.parseError] →
      decideEndpoint raw ai =
        ⟨true, fallbackDecision (toBody raw np sp)
          (resolvedSlippageRisk (toBody raw np sp))
          (resolvedMevRisk (toBody raw np sp))
          (resolvedTimingRisk (toBody raw np sp))
          (calculateProfitMargin (toBody raw np sp))⟩) := by
  refine ⟨?_, fun np sp hn hs => ?_, fun np sp hn hs h2 h5 hai => ?_⟩
  · cases hn : raw.netProfitUsd with
    | none =>
        unfold decideEndpoint
        rw [hn]
        cases raw.spreadPercent <;>
          · show ("Missing required simulation data" : String) ≠ ""
            decide
    | some np =>
        cases hs : raw.spreadPercent with
        | none =>
            unfold decideEndpoint
            rw [hn, hs]
            show ("Missing required simulation data" : String) ≠ ""
            decide
        | some sp =>
            unfold decideEndpoint
            rw [hn, hs]
            exact decidePost_reason_ne_empty _ _
  · unfold decideEndpoint
    rw [hn, hs]
  · have h0 : ¬ np ≤ 0 := by linarith
    have h2n : ¬ np < 2 := not_lt.mpr h2
    have h5n : ¬ 5 < sp := not_lt.mpr h5
    unfold decideEndpoint
    rw [hn, hs]
    simp only [List.mem_cons, List.not_mem_nil, or_false] at hai
    rcases hai with rfl | rfl | rfl <;>
      simp [decidePost, toBody, h0, h2n, h5n]

/-- Witness for claim C6 at a concrete valid request: an advisory call error
leaves the response successful, with the fallback decision and a non-empty
reason. -/
theorem advisory_failure_no_request_failure_witness :
    (decideEndpoint
        ⟨some 1, some 6, 1, 0, 0, some Risk.low, some Risk.low, some Risk.low, 10, 0⟩
        AiOutcome.callError).decision.reason ≠ "" ∧
    (decideEndpoint
        ⟨some 1, some 6, 1, 0, 0, some Risk.low, some Risk.low, some Risk.low, 10, 0⟩
        AiOutcome.callError).success = true ∧
    decideEndpoint
        ⟨some 1, some 6, 1, 0, 0, some Risk.low, some Risk.low, some Risk.low, 10, 0⟩
        AiOutcome.callError =
      ⟨true, fallbackDecision
        (toBody ⟨some 1, some 6, 1, 0, 0, some Risk.low, some Risk.low,
                 some Risk.low, 10, 0⟩ 6 1)
        (resolvedSlippageRisk (toBody ⟨some 1, some 6, 1, 0, 0, some Risk.low,
          some Risk.low, some Risk.low, 10, 0⟩ 6 1))
        (resolvedMevRisk (toBody ⟨some 1, some 6, 1, 0, 0, some Risk.low,
          some Risk.low, some Risk.low, 10, 0⟩ 6 1))
        (resolvedTimingRisk (toBody ⟨some 1, some 6, 1, 0, 0, some Risk.low,
          some Risk.low, some Risk.low, 10, 0⟩ 6 1))
        (calculateProfitMargin (toBody ⟨some 1, some 6, 1, 0, 0, some Risk.low,
          some Risk.low, some Risk.low, 10, 0⟩ 6 1))⟩ :=
  ⟨(advisory_failure_no_request_failure _ AiOutcome.callError).1,
   (advisory_failure_no_request_failure _ AiOutcome.callError).2.1 6 1 rfl rfl,
   (advisory_failure_no_request_failure _ AiOutcome.callError).2.2 6 1 rfl rfl
     (by norm_num) (by norm_num) (by decide)⟩

/-! ## Estimate cycle and the ETH/USD reference

`getEthPriceUsd` reads the ETH/USDC pool slot0 at the moment of the call; it
is invoked separately inside each estimator (`calculateBaseDepositGasFees`,
`calculateArbitrumSwapGasFees`, `calculateAcrossBridgeFees`,
`calculateAcrossBridgeSlippage`), and the estimate endpoint runs the
estimators concurrently. The pool state over the cycle is therefore a
function of the call index: read 0 is the deposit-gas leg, read 1 the
swap-gas leg, read 2 the bridging-fee estimator, read 3 the bridge-slippage
estimator. The AMM-slippage figure is denominated directly in USDC output
and carries no ETH/USD reference; the MEV estimator module is not part of
the sources examined and is not needed below. -/

/-- `getEthPriceUsd`: the price derived from the sqrtPriceX96 reading of the
pool at call time, with the 18/6 decimal adjustment; the approximate
fallback 3500 on oracle failure. -/
def getEthPriceUsd (slot0 : Option ℕ) : ℚ :=
  match slot0 with
  | some sqrtPriceX96 => ((sqrtPriceX96 : ℚ) / 2 ^ 96) ^ 2 * 10 ^ 12
  | none => 3500

/-- USD cost of the Base deposit gas leg: its ETH cost converted at the
price returned by the `getEthPriceUsd` call made inside this estimator. -/
def depositGasCostUsd (gasCostEth : ℚ) (slot0 : Option ℕ) : ℚ :=
  gasCostEth * getEthPriceUsd slot0

/-- USD cost of the Arbitrum swap gas leg, converted at the price returned
by its own `getEthPriceUsd` call. -/
def swapGasCostUsd (gasCostEth : ℚ) (slot0 : Option ℕ) : ℚ :=
  gasCostEth * getEthPriceUsd slot0

/-- `calculateCompleteFlowGasFees`: the two legs run concurrently, each with
its own price read, and the USD totals are summed. -/
def completeFlowGasCostUsd (depositEth swapEth : ℚ)
    (slot0Deposit slot0Swap : Option ℕ) : ℚ :=
  depositGasCostUsd depositEth slot0Deposit + swapGasCostUsd swapEth slot0Swap

/-- `calculateAcrossBridgeFees` total fees in USD: bridge-initiation gas plus
relayer fee, both in ETH, converted at the price returned by its own
`getEthPriceUsd` call. -/
def bridgingTotalFeesUsd (gasEth relayerEth : ℚ) (slot0 : Option ℕ) : ℚ :=
  (gasEth + relayerEth) * getEthPriceUsd slot0

/-- `calculateAcrossBridgeSlippage` total loss in USD, converted at the
price returned by its own `getEthPriceUsd` call. -/
def bridgeSlippageTotalUsd (feesEth : ℚ) (slot0 : Option ℕ) : ℚ :=
  feesEth * getEthPriceUsd slot0

/-- The ETH-denominated inputs of one estimation cycle. -/
structure EstimateInputs where
  depositGasEth : ℚ
  swapGasEth : ℚ
  bridgeGasEth : ℚ
  relayerFeeEth : ℚ
  bridgeSlipEth : ℚ
deriving DecidableEq, Repr

/-- The USD components of the cost breakdown assembled by the estimate
endpoint from the concurrent estimator calls. -/
structure CostBreakdown where
  gasCostUsd : ℚ
  bridgingFeesUsd : ℚ
  bridgeSlippageUsd : ℚ
deriving DecidableEq, Repr

/-- One estimation cycle: the estimators run concurrently, each invoking
`getEthPriceUsd` itself, so each conversion sees the pool at its own call
index. -/
def estimateCycle (pool : ℕ → Option ℕ) (inp : EstimateInputs) : CostBreakdown :=
  { gasCostUsd :=
      completeFlowGasCostUsd inp.depositGasEth inp.swapGasEth (pool 0) (pool 1),
    bridgingFeesUsd :=
      bridgingTotalFeesUsd inp.bridgeGasEth inp.relayerFeeEth (pool 2),
    bridgeSlippageUsd := bridgeSlippageTotalUsd inp.bridgeSlipEth (pool 3) }

/-- Claim C7 counterexample: a cycle in which the first price read fails (so
the 3500 fallback is used) while the later reads return a pool price of
10^12 USD per ETH yields a breakdown in which no single ETH/USD reference
converts every component: the gas component is converted at 3500 and the
bridging component at 10^12. -/
theorem estimate_single_ref_cex :
    ¬ ∃ r : ℚ,
      (estimateCycle (fun k => if k = 0 then none else some (2 ^ 96))
          ⟨1, 0, 1, 0, 1⟩).gasCostUsd = (1 + 0) * r ∧
      (estimateCycle (fun k => if k = 0 then none else some (2 ^ 96))
          ⟨1, 0, 1, 0, 1⟩).bridgingFeesUsd = (1 + 0) * r ∧
      (estimateCycle (fun k => if k = 0 then none else some (2 ^ 96))
          ⟨1, 0, 1, 0, 1⟩).bridgeSlippageUsd = 1 * r := by
  rintro ⟨r, h1, h2, h3⟩
  have e1 : (estimateCycle (fun k => if k = 0 then none else some (2 ^ 96))
      ⟨1, 0, 1, 0, 1⟩).gasCostUsd = 3500 := by
    norm_num [estimateCycle, completeFlowGasCostUsd, depositGasCostUsd,
      swapGasCostUsd, getEthPriceUsd]
  have e2 : (estimateCycle (fun k => if k = 0 then none else some (2 ^ 96))
      ⟨1, 0, 1, 0, 1⟩).bridgingFeesUsd = 10 ^ 12 := by
    norm_num [estimateCycle, bridgingTotalFeesUsd, getEthPriceUsd]
  rw [e1] at h1
  rw [e2] at h2
  have hr1 : r = 3500 := by linarith
  have hr2 : r = 10 ^ 12 := by linarith
  rw [hr1] at hr2
  norm_num at hr2

/-- Claim C7 as amended: each estimator captures its own ETH/USD reference
by calling `getEthPriceUsd` at its own time; when the pool reading is
unchanged across the four reads of one cycle, all components are converted
with the same single reference, but nothing in the code shares one captured
value, so reads that differ produce components converted at different
references (see the counterexample). -/
theorem estimate_single_ref_when_pool_unchanged (pool : ℕ → Option ℕ)
    (inp : EstimateInputs)
    (h01 : pool 0 = pool 1) (h02 : pool 0 = pool 2) (h03 : pool 0 = pool 3) :
    ∃ r : ℚ,
      (estimateCycle pool inp).gasCostUsd =
        (inp.depositGasEth + inp.swapGasEth) * r ∧
      (estimateCycle pool inp).bridgingFeesUsd =
        (inp.bridgeGasEth + inp.relayerFeeEth) * r ∧
      (estimateCycle pool inp).bridgeSlippageUsd = inp.bridgeSlipEth * r := by
  refine ⟨getEthPriceUsd (pool 0), ?_, ?_, ?_⟩
  · show completeFlowGasCostUsd inp.depositGasEth inp.swapGasEth
      (pool 0) (pool 1) = _
    rw [completeFlowGasCostUsd, depositGasCostUsd, swapGasCostUsd, ← h01]
    ring
  · show bridgingTotalFeesUsd inp.bridgeGasEth inp.relayerFeeEth (pool 2) = _
    rw [bridgingTotalFeesUsd, ← h02]
  · show bridgeSlippageTotalUsd inp.bridgeSlipEth (pool 3) = _
    rw [bridgeSlippageTotalUsd, ← h03]

/-- Witness for claim C7 as amended: a cycle whose four reads all fail uses
the single fallback reference 3500 for every component. -/
theorem estimate_single_ref_when_pool_unchanged_witness :
    ∃ r : ℚ,
      (estimateCycle (fun _ => none) ⟨1, 1, 1, 1, 1⟩).gasCostUsd = (1 + 1) * r ∧
      (estimateCycle (fun _ => none) ⟨1, 1, 1, 1, 1⟩).bridgingFeesUsd =
        (1 + 1) * r ∧
      (estimateCycle (fun _ => none) ⟨1, 1, 1, 1, 1⟩).bridgeSlippageUsd =
        1 * r :=
  estimate_single_ref_when_pool_unchanged (fun _ => none) ⟨1, 1, 1, 1, 1⟩
    rfl rfl rfl

end Arbiata
